import Mathlib

/-!
Verification of the agent-ui-framework repository: a shallow embedding of
the theme system (internal/theme), the spring animation engine
(internal/ui/animations), and — where only the spec describes the code —
the wire protocol, transport bridge, dispatch loop and progress renderer.

Machine floats in the Go source are embedded as rationals; Go maps are
embedded as functions to Option; the global mutable theme state is made
an explicit state value threaded through the operations.
-/

/-- A parsed JSON value: the model of one line of the wire format and of
the byte payloads handled by encoding/json. Only the constructors the
embedded code can produce or inspect are included. -/
inductive Json where
  | str (s : String)
  | num (n : Int)
  | bool (b : Bool)
  | obj (fields : List (String × Json))
  | arr (elems : List Json)
  | null
deriving Repr

/-- Field lookup in a JSON object, the model of unmarshalling one field.
Returns none when the value is not an object or the key is missing. -/
def Json.getField : Json → String → Option Json
  | .obj fields, key => fields.lookup key
  | _, _ => none

/-- True exactly on JSON objects. -/
def Json.isObj : Json → Bool
  | .obj _ => true
  | _ => false

namespace theme

/-- The lipgloss.TerminalColor interface: a simple Color (a string),
an AdaptiveColor, a CompleteColor, or the nil interface value —
the cases the code in internal/theme distinguishes. -/
inductive TerminalColor where
  | color (value : String)
  | adaptiveColor (light dark : String)
  | completeColor (trueColor ansi256 ansi : String)
  | nilColor
deriving DecidableEq, Repr

/-- The Colors palette of internal/theme/theme.go: fifteen TerminalColor
fields. -/
structure Colors where
  Primary : TerminalColor
  Secondary : TerminalColor
  Background : TerminalColor
  Surface : TerminalColor
  Overlay : TerminalColor
  Text : TerminalColor
  TextMuted : TerminalColor
  TextDim : TerminalColor
  Success : TerminalColor
  Warning : TerminalColor
  Error : TerminalColor
  Info : TerminalColor
  Accent1 : TerminalColor
  Accent2 : TerminalColor
  Accent3 : TerminalColor
deriving DecidableEq, Repr

/-- The Styles record of theme.go. Every style BuildStyles produces is a
fixed lipgloss function of the palette alone, so the embedding records
the palette the styles were built from; the claims under verification
never inspect an individual lipgloss.Style. -/
structure Styles where
  builtFrom : Colors
deriving DecidableEq, Repr

/-- BuildStyles of theme.go: builds all styles from a color palette. -/
def BuildStyles (c : Colors) : Styles := ⟨c⟩

/-- The Theme record of theme.go: metadata, palette and styles. -/
structure Theme where
  ID : String
  Name : String
  Description : String
  Author : String
  Version : String
  Colors : Colors
  Styles : Styles
deriving DecidableEq, Repr

/-- The package-level mutable state of internal/theme: the `Current`
theme and the `Available` registry map (a Go map, embedded as a
function to Option). -/
structure ThemeState where
  Current : Theme
  Available : String → Option Theme

/-- SetTheme of theme.go: looks the name up in Available; on a hit,
copies that theme into Current and returns true, otherwise returns
false. The updated state is returned alongside the boolean. -/
def SetTheme (st : ThemeState) (name : String) : ThemeState × Bool :=
  match st.Available name with
  | some t => ({ st with Current := t }, true)
  | none => (st, false)

/-- Register of theme.go: `Available[t.ID] = t` (map insert, replacing
any previous binding of the same ID). -/
def Register (st : ThemeState) (t : Theme) : ThemeState :=
  { st with Available := fun k => if k = t.ID then some t else st.Available k }

/-- Charm signature pink of charm.go: lipgloss.Color("212"). -/
def CharmPink : TerminalColor := .color "212"

/-- Charm signature purple of charm.go: lipgloss.Color("#7D56F4"). -/
def CharmPurple : TerminalColor := .color "#7D56F4"

/-- Charm teal of charm.go: lipgloss.Color("35"). -/
def CharmTeal : TerminalColor := .color "35"

/-- The CharmDark color palette of charm.go. -/
def CharmDarkColors : Colors where
  Primary := CharmPink
  Secondary := CharmPurple
  Background := .color "#1a1a2e"
  Surface := .color "#252538"
  Overlay := .color "#2f2f45"
  Text := .color "#FAFAFA"
  TextMuted := .color "#a9b1d6"
  TextDim := .color "#565f89"
  Success := .color "#04B575"
  Warning := .color "#ffb86c"
  Error := .color "#ff6b6b"
  Info := .color "#7dcfff"
  Accent1 := CharmPink
  Accent2 := CharmPurple
  Accent3 := CharmTeal

/-- CharmDark of charm.go, as completed by init() (Styles built from the
palette). -/
def CharmDark : Theme where
  ID := "charm-dark"
  Name := "Charm Dark"
  Description := "The signature Charm aesthetic - glamorous terminal vibes"
  Author := "AgentUI Team"
  Version := "1.0.0"
  Colors := CharmDarkColors
  Styles := BuildStyles CharmDarkColors

/-- The CharmLight color palette of charm.go. -/
def CharmLightColors : Colors where
  Primary := .color "#7D56F4"
  Secondary := .color "#d946ef"
  Background := .color "#faf4ed"
  Surface := .color "#f2e9e1"
  Overlay := .color "#e8ddd5"
  Text := .color "#1a1a2e"
  TextMuted := .color "#6e6a86"
  TextDim := .color "#9893a5"
  Success := .color "#059669"
  Warning := .color "#d97706"
  Error := .color "#dc2626"
  Info := .color "#0284c7"
  Accent1 := .color "#d946ef"
  Accent2 := .color "#7D56F4"
  Accent3 := .color "#059669"

/-- CharmLight of charm.go, as completed by init(). -/
def CharmLight : Theme where
  ID := "charm-light"
  Name := "Charm Light"
  Description := "The signature Charm aesthetic - light mode"
  Author := "AgentUI Team"
  Version := "1.0.0"
  Colors := CharmLightColors
  Styles := BuildStyles CharmLightColors

/-- The CharmAuto color palette of charm.go: every field an
AdaptiveColor. -/
def CharmAutoColors : Colors where
  Primary := .adaptiveColor "#7D56F4" "212"
  Secondary := .adaptiveColor "#d946ef" "#7D56F4"
  Background := .adaptiveColor "#faf4ed" "#1a1a2e"
  Surface := .adaptiveColor "#f2e9e1" "#252538"
  Overlay := .adaptiveColor "#e8ddd5" "#2f2f45"
  Text := .adaptiveColor "#1a1a2e" "#FAFAFA"
  TextMuted := .adaptiveColor "#6e6a86" "#a9b1d6"
  TextDim := .adaptiveColor "#9893a5" "#565f89"
  Success := .adaptiveColor "#059669" "#04B575"
  Warning := .adaptiveColor "#d97706" "#ffb86c"
  Error := .adaptiveColor "#dc2626" "#ff6b6b"
  Info := .adaptiveColor "#0284c7" "#7dcfff"
  Accent1 := .adaptiveColor "#d946ef" "212"
  Accent2 := .adaptiveColor "#7D56F4" "#7D56F4"
  Accent3 := .adaptiveColor "#059669" "35"

/-- CharmAuto of charm.go, as completed by init(). -/
def CharmAuto : Theme where
  ID := "charm-auto"
  Name := "Charm Auto"
  Description := "Automatically adapts to terminal light/dark mode"
  Author := "AgentUI Team"
  Version := "1.0.0"
  Colors := CharmAutoColors
  Styles := BuildStyles CharmAutoColors

/-- The package state right after charm.go's init() has run: the three
Charm themes registered and CharmDark installed as Current. -/
def initThemeState : ThemeState :=
  let st0 : ThemeState := { Current := CharmDark, Available := fun _ => none }
  let st1 := Register st0 CharmDark
  let st2 := Register st1 CharmLight
  Register st2 CharmAuto

/-- ColorsJSON of loader.go: the fifteen color fields as JSON strings. -/
structure ColorsJSON where
  primary : String
  secondary : String
  background : String
  surface : String
  overlay : String
  text : String
  textMuted : String
  textDim : String
  success : String
  warning : String
  error : String
  info : String
  accent1 : String
  accent2 : String
  accent3 : String
deriving DecidableEq, Repr

/-- ThemeJSON of loader.go: a theme definition in JSON format.
Description, author and version carry the omitempty marshalling
option. -/
structure ThemeJSON where
  id : String
  name : String
  description : String
  author : String
  version : String
  colors : ColorsJSON
deriving DecidableEq, Repr

/-- parseColor of loader.go: the empty string maps to
lipgloss.Color(""), any other string to lipgloss.Color(s). -/
def parseColor (s : String) : TerminalColor :=
  if s = "" then .color "" else .color s

/-- colorToString of loader.go: nil maps to "", a simple Color to its
string value, and every other color type (adaptive, complete) to "". -/
def colorToString : TerminalColor → String
  | .nilColor => ""
  | .color value => value
  | _ => ""

/-- True exactly on the simple lipgloss.Color variant — the only
variant colorToString exports faithfully. -/
def TerminalColor.isSimple : TerminalColor → Bool
  | .color _ => true
  | _ => false

/-- All fifteen fields of a palette are simple lipgloss.Color values. -/
def Colors.allSimple (c : Colors) : Bool :=
  c.Primary.isSimple && c.Secondary.isSimple && c.Background.isSimple &&
  c.Surface.isSimple && c.Overlay.isSimple && c.Text.isSimple &&
  c.TextMuted.isSimple && c.TextDim.isSimple && c.Success.isSimple &&
  c.Warning.isSimple && c.Error.isSimple && c.Info.isSimple &&
  c.Accent1.isSimple && c.Accent2.isSimple && c.Accent3.isSimple

/-- ToTheme of loader.go: parse the fifteen color strings, build the
styles from the resulting palette, and assemble the Theme. The Go
function's error result is always nil. -/
def ThemeJSON.ToTheme (tj : ThemeJSON) : Except String Theme :=
  let colors : Colors :=
    { Primary := parseColor tj.colors.primary
      Secondary := parseColor tj.colors.secondary
      Background := parseColor tj.colors.background
      Surface := parseColor tj.colors.surface
      Overlay := parseColor tj.colors.overlay
      Text := parseColor tj.colors.text
      TextMuted := parseColor tj.colors.textMuted
      TextDim := parseColor tj.colors.textDim
      Success := parseColor tj.colors.success
      Warning := parseColor tj.colors.warning
      Error := parseColor tj.colors.error
      Info := parseColor tj.colors.info
      Accent1 := parseColor tj.colors.accent1
      Accent2 := parseColor tj.colors.accent2
      Accent3 := parseColor tj.colors.accent3 }
  .ok { ID := tj.id, Name := tj.name, Description := tj.description,
        Author := tj.author, Version := tj.version,
        Colors := colors, Styles := BuildStyles colors }

/-- encoding/json unmarshalling of one string field of a flat struct: a
missing key yields the zero value "", a string yields its value, any
other JSON value is an unmarshalling error (none). -/
def unmarshalStr (j : Json) (key : String) : Option String :=
  match j.getField key with
  | Option.none => some ""
  | some (.str s) => some s
  | some .null => some ""
  | some _ => none

/-- encoding/json unmarshalling of the ColorsJSON struct from the value
of the "colors" key. -/
def unmarshalColorsJSON (j : Json) : Option ColorsJSON := do
  if !j.isObj then none else
  let primary ← unmarshalStr j "primary"
  let secondary ← unmarshalStr j "secondary"
  let background ← unmarshalStr j "background"
  let surface ← unmarshalStr j "surface"
  let overlay ← unmarshalStr j "overlay"
  let text ← unmarshalStr j "text"
  let textMuted ← unmarshalStr j "textMuted"
  let textDim ← unmarshalStr j "textDim"
  let success ← unmarshalStr j "success"
  let warning ← unmarshalStr j "warning"
  let error ← unmarshalStr j "error"
  let info ← unmarshalStr j "info"
  let accent1 ← unmarshalStr j "accent1"
  let accent2 ← unmarshalStr j "accent2"
  let accent3 ← unmarshalStr j "accent3"
  pure { primary, secondary, background, surface, overlay, text,
         textMuted, textDim, success, warning, error, info,
         accent1, accent2, accent3 }

/-- encoding/json unmarshalling of ThemeJSON: top level must be an
object; the metadata strings default to "" when missing; a missing
"colors" key leaves the zero-value ColorsJSON (all fields ""). -/
def unmarshalThemeJSON (j : Json) : Option ThemeJSON := do
  if !j.isObj then none else
  let id ← unmarshalStr j "id"
  let name ← unmarshalStr j "name"
  let description ← unmarshalStr j "description"
  let author ← unmarshalStr j "author"
  let version ← unmarshalStr j "version"
  let colors ←
    match j.getField "colors" with
    | Option.none =>
        some { primary := "", secondary := "", background := "",
               surface := "", overlay := "", text := "", textMuted := "",
               textDim := "", success := "", warning := "", error := "",
               info := "", accent1 := "", accent2 := "", accent3 := "" }
    | some .null =>
        some { primary := "", secondary := "", background := "",
               surface := "", overlay := "", text := "", textMuted := "",
               textDim := "", success := "", warning := "", error := "",
               info := "", accent1 := "", accent2 := "", accent3 := "" }
    | some cj => unmarshalColorsJSON cj
  pure { id, name, description, author, version, colors }

/-- LoadThemeFromJSON of loader.go: unmarshal the data into a ThemeJSON
(failure is the "failed to parse theme JSON" error) and convert with
ToTheme. The data is embedded as its parsed JSON value. -/
def LoadThemeFromJSON (data : Json) : Except String Theme :=
  match unmarshalThemeJSON data with
  | Option.none => .error "failed to parse theme JSON"
  | some tj => tj.ToTheme

/-- encoding/json marshalling of ColorsJSON (no omitempty fields). -/
def marshalColorsJSON (c : ColorsJSON) : Json :=
  .obj [("primary", .str c.primary), ("secondary", .str c.secondary),
        ("background", .str c.background), ("surface", .str c.surface),
        ("overlay", .str c.overlay), ("text", .str c.text),
        ("textMuted", .str c.textMuted), ("textDim", .str c.textDim),
        ("success", .str c.success), ("warning", .str c.warning),
        ("error", .str c.error), ("info", .str c.info),
        ("accent1", .str c.accent1), ("accent2", .str c.accent2),
        ("accent3", .str c.accent3)]

/-- encoding/json marshalling of ThemeJSON: description, author and
version are omitted when empty (omitempty). -/
def marshalThemeJSON (tj : ThemeJSON) : Json :=
  .obj ([("id", .str tj.id), ("name", .str tj.name)]
    ++ (if tj.description = "" then [] else [("description", .str tj.description)])
    ++ (if tj.author = "" then [] else [("author", .str tj.author)])
    ++ (if tj.version = "" then [] else [("version", .str tj.version)])
    ++ [("colors", marshalColorsJSON tj.colors)])

/-- ExportThemeToJSON of loader.go: build a ThemeJSON with colorToString
on every color field and marshal it. The produced bytes are embedded as
their parsed JSON value; the Go error result is always nil for this
struct. -/
def ExportThemeToJSON (t : Theme) : Json :=
  marshalThemeJSON
    { id := t.ID, name := t.Name, description := t.Description,
      author := t.Author, version := t.Version,
      colors :=
        { primary := colorToString t.Colors.Primary
          secondary := colorToString t.Colors.Secondary
          background := colorToString t.Colors.Background
          surface := colorToString t.Colors.Surface
          overlay := colorToString t.Colors.Overlay
          text := colorToString t.Colors.Text
          textMuted := colorToString t.Colors.TextMuted
          textDim := colorToString t.Colors.TextDim
          success := colorToString t.Colors.Success
          warning := colorToString t.Colors.Warning
          error := colorToString t.Colors.Error
          info := colorToString t.Colors.Info
          accent1 := colorToString t.Colors.Accent1
          accent2 := colorToString t.Colors.Accent2
          accent3 := colorToString t.Colors.Accent3 } }

/-- The process environment and file system as LoadThemeFromEnv sees
them: the AGENTUI_THEME variable (Go's Getenv returns "" when unset),
whether os.Stat succeeds on a path, and the contents os.ReadFile
returns (none when reading fails), embedded as parsed JSON. -/
structure OsEnv where
  agentuiTheme : String
  statOk : String → Bool
  readFile : String → Option Json

/-- LoadThemeFromFile of loader.go: read the file and feed the bytes to
LoadThemeFromJSON. -/
def LoadThemeFromFile (env : OsEnv) (path : String) : Except String Theme :=
  match env.readFile path with
  | Option.none => .error "failed to read theme file"
  | some data => LoadThemeFromJSON data

/-- LoadThemeFromEnv of loader.go, acting on the explicit package state:
empty variable is a no-op; a registered theme ID is installed via
SetTheme; otherwise a path whose os.Stat succeeds is loaded, registered
and installed; otherwise the "unknown theme" error. Returns the new
state and the error (none for nil). -/
def LoadThemeFromEnv (env : OsEnv) (st : ThemeState) : ThemeState × Option String :=
  let themePath := env.agentuiTheme
  if themePath = "" then (st, none)
  else if (st.Available themePath).isSome then
    ((SetTheme st themePath).1, none)
  else if env.statOk themePath then
    match LoadThemeFromFile env themePath with
    | .error e => (st, some ("failed to load theme from " ++ themePath ++ ": " ++ e))
    | .ok t =>
        let st1 := Register st t
        ((SetTheme st1 t.ID).1, none)
  else (st, some ("unknown theme: " ++ themePath))

end theme

namespace animations

/-- SpringConfig of spring.go: frames per second, spring stiffness and
damping (the Go float64 parameters embedded as rationals). -/
structure SpringConfig where
  FPS : Nat
  Stiffness : Rat
  Damping : Rat
deriving DecidableEq, Repr

/-- DefaultSpringConfig of spring.go: 60 FPS, stiffness 7.0, damping
0.15. -/
def DefaultSpringConfig : SpringConfig :=
  { FPS := 60, Stiffness := 7, Damping := 15/100 }

/-- FastSpringConfig of spring.go: 60 FPS, stiffness 12.0, damping
0.25. -/
def FastSpringConfig : SpringConfig :=
  { FPS := 60, Stiffness := 12, Damping := 25/100 }

/-- SlowSpringConfig of spring.go: 60 FPS, stiffness 4.0, damping
0.1. -/
def SlowSpringConfig : SpringConfig :=
  { FPS := 60, Stiffness := 4, Damping := 1/10 }

/-- The Spring record of spring.go. The embedded field `spring` is the
harmonica.Spring physics step (current, velocity, target) to (new
current, new velocity): harmonica is an external library, so its step
is carried as an abstract function, exactly as the Go struct carries
the opaque harmonica.Spring value. -/
structure Spring where
  spring : Rat → Rat → Rat → Rat × Rat
  target : Rat
  current : Rat
  velocity : Rat
  active : Bool

/-- NewSpring of spring.go: zero position, target and velocity,
inactive; the physics step is built by harmonica from the config. -/
def NewSpring (step : Rat → Rat → Rat → Rat × Rat) : Spring :=
  { spring := step, current := 0, target := 0, velocity := 0, active := false }

/-- SetTarget of spring.go: store the target and activate. -/
def Spring.SetTarget (s : Spring) (t : Rat) : Spring :=
  { s with target := t, active := true }

/-- SetCurrent of spring.go: jump to the value with no animation. -/
def Spring.SetCurrent (s : Spring) (v : Rat) : Spring :=
  { s with current := v, target := v, velocity := 0, active := false }

/-- isSettled of spring.go: both the position delta and the velocity,
made non-negative by conditional negation, are strictly below the
threshold. -/
def isSettled (current velocity target threshold : Rat) : Bool :=
  let positionDelta := current - target
  let positionDelta := if positionDelta < 0 then -positionDelta else positionDelta
  let velocity := if velocity < 0 then -velocity else velocity
  decide (positionDelta < threshold) && decide (velocity < threshold)

/-- Update of spring.go: an inactive spring returns false untouched; an
active one advances through the harmonica step, then snaps to the
target, zeroes velocity and deactivates when settled within 0.5,
returning whether it is still animating. -/
def Spring.Update (s : Spring) : Spring × Bool :=
  if !s.active then (s, false)
  else
    let cv := s.spring s.current s.velocity s.target
    if isSettled cv.1 cv.2 s.target (1/2) then
      ({ s with current := s.target, velocity := 0, active := false }, false)
    else
      ({ s with current := cv.1, velocity := cv.2 }, true)

/-- Value of spring.go. -/
def Spring.Value (s : Spring) : Rat := s.current

/-- IsActive of spring.go. -/
def Spring.IsActive (s : Spring) : Bool := s.active

/-- n successive Update ticks (discarding the boolean results). -/
def Spring.updateN (s : Spring) : Nat → Spring
  | 0 => s
  | n + 1 => (s.Update.1).updateN n

end animations

namespace protocol

/-- Modelled from the spec: the protocol code (src/agentui/protocol.py
and internal/protocol) is not in the sources, so the Message envelope
follows section 3 and section 6 of the spec — a kind tag, an optional
id (present iff the message is a request expecting a reply or a reply),
and a kind-specific payload object. One line of the wire is embedded as
its parsed JSON value. -/
structure Message where
  kind : String
  id : Option String
  payload : Json

/-- Modelled from the spec: the message kinds listed in section 6. -/
def knownKinds : List String :=
  ["text", "markdown", "alert", "progress", "spinner", "table", "code",
   "form", "confirm", "select", "input"]

/-- Modelled from the spec: a representable message — its kind is one
the codec recognizes and its payload is an object, as the envelope
requires. -/
def representable (m : Message) : Bool :=
  knownKinds.contains m.kind && m.payload.isObj

/-- Modelled from the spec: encode of the Message Codec (section 4.1) —
one self-contained line carrying the envelope fields kind, id when
present, and payload; fails with an EncodingError only when the payload
cannot be represented (not an object). -/
def encode (m : Message) : Except String Json :=
  if !m.payload.isObj then .error "EncodingError"
  else
    .ok (.obj ([("kind", .str m.kind)]
      ++ (match m.id with
          | some i => [("id", .str i)]
          | Option.none => [])
      ++ [("payload", m.payload)]))

/-- Modelled from the spec: decode of the Message Codec (section 4.1) —
the line must be an object whose kind is a recognized string, whose id
is a string when present, and whose payload is an object; anything else
is a DecodingError, never a crash. Unknown extra fields are ignored. -/
def decode (line : Json) : Except String Message :=
  match line.getField "kind" with
  | some (.str kind) =>
      if !knownKinds.contains kind then .error "DecodingError: unrecognized kind"
      else
        match line.getField "payload" with
        | some payload =>
            if !payload.isObj then .error "DecodingError: payload is not an object"
            else
              match line.getField "id" with
              | some (.str i) => .ok { kind := kind, id := some i, payload := payload }
              | Option.none => .ok { kind := kind, id := Option.none, payload := payload }
              | some _ => .error "DecodingError: id is not a string"
        | Option.none => .error "DecodingError: missing payload"
  | _ => .error "DecodingError: missing kind"

end protocol

namespace bridge

/-- Modelled from the spec: the outcome a caller of `request` observes
(section 4.3 and section 7) — a reply payload, a Timeout, or
TransportClosed. -/
inductive Outcome where
  | reply (payload : Json)
  | timeout
  | transportClosed

/-- Modelled from the spec: the Transport Bridge and Correlation Table
state (sections 4.2, 4.3) — the pending map from request id to its
deadline (lookup and removal atomic, ids unique), and the outcomes so
far delivered to each id's caller. -/
structure BridgeState where
  pending : String → Option Nat
  delivered : String → List Outcome

/-- Modelled from the spec: the events the Bridge reacts to — a reply
line arriving from the renderer, the clock reaching an instant (which
times out every entry whose deadline has elapsed), and transport
teardown (subprocess exit or pipe break, cancelAll). -/
inductive BridgeEvent where
  | replyArrives (id : String) (payload : Json)
  | clock (now : Nat)
  | close

/-- Modelled from the spec: one atomic Bridge transition. A reply for a
pending id removes the entry and completes its caller with the payload;
a reply for an unknown id is dropped (section 4.2's
complete-on-missing-id rule). The clock reaching `now` completes every
entry whose deadline is at most `now` with Timeout and removes it.
Teardown completes every pending entry with TransportClosed. -/
def bridgeStep (st : BridgeState) (e : BridgeEvent) : BridgeState :=
  match e with
  | .replyArrives rid p =>
      match st.pending rid with
      | some _ =>
          { pending := fun k => if k = rid then Option.none else st.pending k
            delivered := fun k =>
              if k = rid then st.delivered k ++ [.reply p] else st.delivered k }
      | Option.none => st
  | .clock now =>
      { pending := fun k =>
          match st.pending k with
          | some dl => if dl ≤ now then Option.none else some dl
          | Option.none => Option.none
        delivered := fun k =>
          match st.pending k with
          | some dl => if dl ≤ now then st.delivered k ++ [.timeout] else st.delivered k
          | Option.none => st.delivered k }
  | .close =>
      { pending := fun _ => Option.none
        delivered := fun k =>
          match st.pending k with
          | some _ => st.delivered k ++ [.transportClosed]
          | Option.none => st.delivered k }

/-- Modelled from the spec: the Bridge processing a sequence of events
in order (the Correlation Table serializes them). -/
def bridgeRun (st : BridgeState) (events : List BridgeEvent) : BridgeState :=
  events.foldl bridgeStep st

/-- Modelled from the spec: an event that forces the request with this
id and deadline to resolve — its reply arriving, the clock passing its
deadline, or transport teardown. -/
def resolves (id : String) (deadline : Nat) : BridgeEvent → Prop
  | .replyArrives rid _ => rid = id
  | .clock now => deadline ≤ now
  | .close => True

/-- The per-request invariant of the Correlation Table: a registered
request is either still pending with its deadline and no outcome
delivered, or resolved with exactly one outcome delivered. -/
def goodRequest (id : String) (dl : Nat) (st : BridgeState) : Prop :=
  (st.pending id = some dl ∧ st.delivered id = []) ∨
  (st.pending id = Option.none ∧ (st.delivered id).length = 1)

end bridge

namespace dispatch

/-- Modelled from the spec: the Dispatch Loop of section 4.4,
parameterized by the render-state type, the message type and the
fragment (rendered bytes) type, by the pure transform
(state, message) to (state, outbound messages), by the renderer from
state to fragment, and by the fresh initial state. -/
structure Loop (State Msg Fragment : Type) where
  initialState : State
  transform : State → Msg → State × List Msg
  render : State → Fragment

/-- Modelled from the spec: the interactive mode — read messages in
order, apply transform, write the outbound messages of each step before
the next input, and render each resulting state. Returns the rendered
fragment and the outbound messages of every step, in order. -/
def interactiveRun {State Msg Fragment : Type}
    (L : Loop State Msg Fragment) :
    State → List Msg → List (Fragment × List Msg)
  | _, [] => []
  | s, m :: rest =>
      let step := L.transform s m
      (L.render step.1, step.2) :: interactiveRun L step.1 rest

/-- Modelled from the spec: the Headless Executor — read exactly one
message, apply transform once against a fresh initial state, render the
resulting state, and exit. -/
def headless {State Msg Fragment : Type}
    (L : Loop State Msg Fragment) (m : Msg) : Fragment :=
  L.render (L.transform L.initialState m).1

end dispatch

namespace progress

/-- Modelled from the spec: what the progress View Handler renders —
either a determinate bar at a percentage or the indeterminate spinner. -/
inductive ProgressRender where
  | percent (p : Int)
  | indeterminate
deriving DecidableEq, Repr

/-- Modelled from the spec: clamping a progress value to [0, total]
(section 4.5's numeric policy). -/
def clampProgress (current total : Int) : Int :=
  max 0 (min current total)

/-- Modelled from the spec: rendering a progress payload — a total of 0
is indeterminate (an unbounded spinner, no division performed);
otherwise the clamped current over total as a percentage. -/
def renderProgress (current total : Int) : ProgressRender :=
  if total = 0 then .indeterminate
  else .percent (clampProgress current total * 100 / total)

end progress

section claims

open theme animations protocol bridge dispatch progress

/-- The conditional negation used by isSettled computes the absolute
value. -/
theorem condNeg_eq_abs (x : Rat) : (if x < 0 then -x else x) = |x| := by
  split_ifs with h
  · exact (abs_of_neg h).symm
  · exact (abs_of_nonneg (le_of_not_lt h)).symm

/-- isSettled decides exactly the spec's settling condition. -/
theorem isSettled_eq_true_iff (current velocity target threshold : Rat) :
    isSettled current velocity target threshold = true ↔
      |current - target| < threshold ∧ |velocity| < threshold := by
  simp only [isSettled, condNeg_eq_abs, Bool.and_eq_true, decide_eq_true_eq]

/-- C7: the three named animation profiles are the fixed pairs
(7.0, 0.15), (12.0, 0.25) and (4.0, 0.1) of stiffness and damping, and
the three pairs are pairwise distinct. -/
theorem spring_profiles_fixed_and_distinct :
    (DefaultSpringConfig.Stiffness, DefaultSpringConfig.Damping) = (7, 15/100) ∧
    (FastSpringConfig.Stiffness, FastSpringConfig.Damping) = (12, 25/100) ∧
    (SlowSpringConfig.Stiffness, SlowSpringConfig.Damping) = (4, 1/10) ∧
    (DefaultSpringConfig.Stiffness, DefaultSpringConfig.Damping) ≠
      (FastSpringConfig.Stiffness, FastSpringConfig.Damping) ∧
    (DefaultSpringConfig.Stiffness, DefaultSpringConfig.Damping) ≠
      (SlowSpringConfig.Stiffness, SlowSpringConfig.Damping) ∧
    (FastSpringConfig.Stiffness, FastSpringConfig.Damping) ≠
      (SlowSpringConfig.Stiffness, SlowSpringConfig.Damping) := by
  refine ⟨rfl, rfl, rfl, ?_, ?_, ?_⟩ <;> decide

/-- C4: one Update step of an active spring advances position and
velocity through the spring dynamics step, and exactly when the result
is within the fixed threshold 0.5 of the target in both position and
velocity, the position snaps exactly to the target, the velocity resets
to zero, the spring deactivates and Update returns false; otherwise the
advanced values are kept and Update returns true. -/
theorem spring_update_settles (s : Spring) (c v : Rat)
    (ha : s.active = true)
    (hstep : s.spring s.current s.velocity s.target = (c, v)) :
    (|c - s.target| < 1/2 ∧ |v| < 1/2 →
      s.Update = ({ s with current := s.target, velocity := 0, active := false }, false)) ∧
    (¬(|c - s.target| < 1/2 ∧ |v| < 1/2) →
      s.Update = ({ s with current := c, velocity := v }, true)) := by
  constructor <;> intro h <;>
    simp only [Spring.Update, ha, Bool.not_true, Bool.false_eq_true,
      if_false, hstep]
  · rw [if_pos ((isSettled_eq_true_iff c v s.target (1/2)).mpr h)]
  · rw [if_neg (fun hs => h ((isSettled_eq_true_iff c v s.target (1/2)).mp hs))]

/-- C4 witness: a concrete active spring whose dynamics step lands on
the target settles in one Update. -/
theorem spring_update_settles_witness :
    ({ spring := fun _ _ t => (t, 0), target := 5, current := 0,
       velocity := 0, active := true } : Spring).Update
      = ({ spring := fun _ _ t => (t, 0), target := 5, current := 5,
           velocity := 0, active := false }, false) := by
  have h := (spring_update_settles
    { spring := fun _ _ t => (t, 0), target := 5, current := 0,
      velocity := 0, active := true } 5 0 rfl rfl).1 (by norm_num)
  simpa using h

/-- C5: an inactive spring is left completely unchanged by any number
of Update ticks, and every such tick returns false. -/
theorem spring_inactive_noop (s : Spring) (h : s.IsActive = false) (n : Nat) :
    s.updateN n = s ∧ (s.updateN n).Update = (s, false) := by
  have hstep : s.Update = (s, false) := by
    simp only [Spring.IsActive] at h
    simp [Spring.Update, h]
  have hiter : ∀ m, s.updateN m = s := by
    intro m
    induction m with
    | zero => rfl
    | succ k ih =>
        show (s.Update.1).updateN k = s
        rw [hstep]
        exact ih
  exact ⟨hiter n, by rw [hiter n, hstep]⟩

/-- C5 witness: three ticks on a concrete inactive spring are a no-op
and still report false. -/
theorem spring_inactive_noop_witness :
    (NewSpring (fun c v _ => (c + 1, v))).updateN 3
        = NewSpring (fun c v _ => (c + 1, v)) ∧
      ((NewSpring (fun c v _ => (c + 1, v))).updateN 3).Update
        = (NewSpring (fun c v _ => (c + 1, v)), false) :=
  spring_inactive_noop (NewSpring (fun c v _ => (c + 1, v))) rfl 3

/-- C9: SetTheme is atomic with respect to failure — a registered name
installs the registered theme and returns true; an unregistered name
returns false with the state (Current and Available) unchanged. -/
theorem SetTheme_atomic (st : ThemeState) (name : String) :
    (∀ t, st.Available name = some t →
      SetTheme st name = ({ st with Current := t }, true)) ∧
    (st.Available name = Option.none →
      SetTheme st name = (st, false)) := by
  constructor
  · intro t h
    simp [SetTheme, h]
  · intro h
    simp [SetTheme, h]

/-- C9 witness: on the post-init state, "charm-light" hits and installs
CharmLight; a made-up name misses and changes nothing. -/
theorem SetTheme_atomic_witness :
    SetTheme initThemeState "charm-light"
        = ({ initThemeState with Current := CharmLight }, true) ∧
      SetTheme initThemeState "no-such-theme" = (initThemeState, false) :=
  ⟨(SetTheme_atomic initThemeState "charm-light").1 CharmLight (by rfl),
   (SetTheme_atomic initThemeState "no-such-theme").2 (by rfl)⟩

/-- C6: a progress payload renders with its value clamped to
[0, total] — in particular current > total renders as 100% — and a
total of 0 renders as indeterminate progress with no division
performed. -/
theorem progress_clamp_and_indeterminate (current total : Int) :
    (total = 0 → renderProgress current total = .indeterminate) ∧
    (0 ≤ total → 0 ≤ clampProgress current total ∧
      clampProgress current total ≤ total) ∧
    (0 < total → total < current → renderProgress current total = .percent 100) := by
  refine ⟨fun h => by simp [renderProgress, h],
    fun h => ⟨le_max_left _ _, max_le h (min_le_right _ _)⟩,
    fun h hc => ?_⟩
  have hne : total ≠ 0 := ne_of_gt h
  simp only [renderProgress, if_neg hne, clampProgress]
  rw [min_eq_right (le_of_lt hc), max_eq_right (le_of_lt h),
    Int.mul_ediv_cancel_left 100 hne]

/-- C6 witness: current 7 of total 5 clamps to 100%, and total 0 is
indeterminate. -/
theorem progress_clamp_witness :
    renderProgress 7 5 = .percent 100 ∧ renderProgress 3 0 = .indeterminate :=
  ⟨(progress_clamp_and_indeterminate 7 5).2.2 (by norm_num) (by norm_num),
   (progress_clamp_and_indeterminate 3 0).1 rfl⟩

/-- C2: for every message, the Headless Executor's output on a fresh
initial state is identical to the fragment the interactive Dispatch
Loop renders from its first transform of the same message, whatever
messages follow and whatever transform and renderer the loop is built
from. -/
theorem headless_matches_interactive {State Msg Fragment : Type}
    (L : Loop State Msg Fragment) (m : Msg) (rest : List Msg) :
    (interactiveRun L L.initialState (m :: rest)).head?.map Prod.fst
      = some (headless L m) := by
  simp [interactiveRun, headless]

/-- C3: the codec round trip — every representable message encodes to a
line that decodes back to exactly the same message. -/
theorem decode_encode_roundtrip (m : Message) (h : representable m = true) :
    ∃ line, encode m = .ok line ∧ decode line = .ok m := by
  obtain ⟨kind, mid, payload⟩ := m
  simp only [representable, Bool.and_eq_true] at h
  obtain ⟨hkind, hobj⟩ := h
  have hmem : kind ∈ knownKinds := by simpa using hkind
  refine ⟨.obj ([("kind", .str kind)]
      ++ (match mid with
          | some i => [("id", .str i)]
          | Option.none => [])
      ++ [("payload", payload)]), by simp [encode, hobj], ?_⟩
  cases mid with
  | none => simp [decode, Json.getField, List.lookup, hkind, hobj, hmem]
  | some i => simp [decode, Json.getField, List.lookup, hkind, hobj, hmem]

/-- C3 witness: a concrete confirm request round-trips through the
codec. -/
theorem decode_encode_roundtrip_witness :
    ∃ line,
      encode { kind := "confirm", id := some "r1",
               payload := .obj [("message", .str "Delete?")] } = .ok line ∧
      decode line = .ok { kind := "confirm", id := some "r1",
                          payload := .obj [("message", .str "Delete?")] } :=
  decode_encode_roundtrip
    { kind := "confirm", id := some "r1",
      payload := .obj [("message", .str "Delete?")] } (by decide)

/-- C8: theme selection from the environment — an absent AGENTUI_THEME
(Go's empty string) changes nothing, with the built-in CharmDark
default of init() remaining Current; a registered identifier installs
that theme; a path whose stat succeeds and that loads as a theme gets
registered and installed; anything else yields the "unknown theme"
error with the state unchanged. -/
theorem LoadThemeFromEnv_selects (env : OsEnv) (st : ThemeState) :
    initThemeState.Current = CharmDark ∧
    (env.agentuiTheme = "" → LoadThemeFromEnv env st = (st, Option.none)) ∧
    (∀ t, env.agentuiTheme ≠ "" → st.Available env.agentuiTheme = some t →
      LoadThemeFromEnv env st = ({ st with Current := t }, Option.none)) ∧
    (∀ t, env.agentuiTheme ≠ "" → st.Available env.agentuiTheme = Option.none →
      env.statOk env.agentuiTheme = true →
      LoadThemeFromFile env env.agentuiTheme = .ok t →
      (LoadThemeFromEnv env st).1.Current = t ∧
      (LoadThemeFromEnv env st).1.Available t.ID = some t ∧
      (LoadThemeFromEnv env st).2 = Option.none) ∧
    (env.agentuiTheme ≠ "" → st.Available env.agentuiTheme = Option.none →
      env.statOk env.agentuiTheme = false →
      LoadThemeFromEnv env st
        = (st, some ("unknown theme: " ++ env.agentuiTheme))) := by
  refine ⟨rfl, ?_, ?_, ?_, ?_⟩
  · intro h
    simp [LoadThemeFromEnv, h]
  · intro t hne hav
    simp [LoadThemeFromEnv, hne, hav, SetTheme]
  · intro t hne hav hstat hload
    simp [LoadThemeFromEnv, hne, hav, hstat, hload, SetTheme, Register]
  · intro hne hav hstat
    simp [LoadThemeFromEnv, hne, hav, hstat]

/-- C8 witness: with AGENTUI_THEME set to the registered identifier
"charm-light" on the post-init state, CharmLight becomes Current with
no error; with it unset, nothing changes. -/
theorem LoadThemeFromEnv_selects_witness :
    LoadThemeFromEnv
        { agentuiTheme := "charm-light", statOk := fun _ => false,
          readFile := fun _ => Option.none } initThemeState
      = ({ initThemeState with Current := CharmLight }, Option.none) ∧
    LoadThemeFromEnv
        { agentuiTheme := "", statOk := fun _ => false,
          readFile := fun _ => Option.none } initThemeState
      = (initThemeState, Option.none) :=
  ⟨((LoadThemeFromEnv_selects
      { agentuiTheme := "charm-light", statOk := fun _ => false,
        readFile := fun _ => Option.none } initThemeState).2.2.1)
      CharmLight (by decide) (by rfl),
   ((LoadThemeFromEnv_selects
      { agentuiTheme := "", statOk := fun _ => false,
        readFile := fun _ => Option.none } initThemeState).2.1) rfl⟩

/-- encoding/json round trip at the ThemeJSON level: unmarshalling the
marshalled struct recovers it, omitempty fields included. -/
theorem unmarshal_marshalThemeJSON (tj : ThemeJSON) :
    unmarshalThemeJSON (marshalThemeJSON tj) = some tj := by
  obtain ⟨id, name, description, author, version, colors⟩ := tj
  obtain ⟨p1, p2, p3, p4, p5, p6, p7, p8, p9, p10, p11, p12, p13, p14, p15⟩ :=
    colors
  simp only [marshalThemeJSON]
  split_ifs <;>
    simp_all [unmarshalThemeJSON, unmarshalStr, Json.getField, Json.isObj,
      List.lookup, unmarshalColorsJSON, marshalColorsJSON]

/-- Re-parsing an exported simple color recovers it (both the empty and
non-empty string branches of parseColor land on the same Color). -/
theorem parseColor_colorToString (c : TerminalColor) (h : c.isSimple = true) :
    parseColor (colorToString c) = c := by
  cases c with
  | color s =>
      simp only [colorToString, parseColor]
      split_ifs with hs
      · rw [hs]
      · rfl
  | adaptiveColor l d => simp [TerminalColor.isSimple] at h
  | completeColor a b c2 => simp [TerminalColor.isSimple] at h
  | nilColor => simp [TerminalColor.isSimple] at h

/-- C10: a theme whose fifteen colors are all simple lipgloss.Color
values survives the JSON round trip — LoadThemeFromJSON on
ExportThemeToJSON reproduces its ID, Name, Description, Author, Version
and all fifteen colors exactly — while adaptive and complete color
types are exported as the empty string. -/
theorem export_load_roundtrip (t : Theme) (h : Colors.allSimple t.Colors = true) :
    (∃ t2, LoadThemeFromJSON (ExportThemeToJSON t) = .ok t2 ∧
      t2.ID = t.ID ∧ t2.Name = t.Name ∧ t2.Description = t.Description ∧
      t2.Author = t.Author ∧ t2.Version = t.Version ∧
      t2.Colors = t.Colors) ∧
    (∀ l d, colorToString (.adaptiveColor l d) = "") ∧
    (∀ a b c, colorToString (.completeColor a b c) = "") := by
  refine ⟨?_, fun l d => rfl, fun a b c => rfl⟩
  obtain ⟨tID, tName, tDesc, tAuthor, tVersion, cs, sty⟩ := t
  obtain ⟨c1, c2, c3, c4, c5, c6, c7, c8, c9, c10, c11, c12, c13, c14, c15⟩ := cs
  simp only [Colors.allSimple, Bool.and_eq_true, and_assoc] at h
  obtain ⟨h1, h2, h3, h4, h5, h6, h7, h8, h9, h10, h11, h12, h13, h14, h15⟩ := h
  simp only [ExportThemeToJSON, LoadThemeFromJSON, unmarshal_marshalThemeJSON,
    ThemeJSON.ToTheme]
  refine ⟨_, rfl, rfl, rfl, rfl, rfl, rfl, ?_⟩
  rw [parseColor_colorToString c1 h1, parseColor_colorToString c2 h2,
    parseColor_colorToString c3 h3, parseColor_colorToString c4 h4,
    parseColor_colorToString c5 h5, parseColor_colorToString c6 h6,
    parseColor_colorToString c7 h7, parseColor_colorToString c8 h8,
    parseColor_colorToString c9 h9, parseColor_colorToString c10 h10,
    parseColor_colorToString c11 h11, parseColor_colorToString c12 h12,
    parseColor_colorToString c13 h13, parseColor_colorToString c14 h14,
    parseColor_colorToString c15 h15]

/-- C10 witness: the built-in CharmDark theme (all simple colors)
round-trips through export and load. -/
theorem export_load_roundtrip_witness :
    ∃ t2, LoadThemeFromJSON (ExportThemeToJSON CharmDark) = .ok t2 ∧
      t2.ID = CharmDark.ID ∧ t2.Name = CharmDark.Name ∧
      t2.Description = CharmDark.Description ∧
      t2.Author = CharmDark.Author ∧ t2.Version = CharmDark.Version ∧
      t2.Colors = CharmDark.Colors :=
  (export_load_roundtrip CharmDark (by decide)).1

/-- A resolved request is frozen: once its id is gone from the pending
map, no Bridge event touches it again — a late reply is dropped, the
clock and teardown skip it. -/
theorem bridgeStep_frozen (id : String) (st : BridgeState) (e : BridgeEvent)
    (h : st.pending id = Option.none) :
    (bridgeStep st e).pending id = Option.none ∧
    (bridgeStep st e).delivered id = st.delivered id := by
  cases e with
  | replyArrives rid p =>
      cases hr : st.pending rid with
      | none => simp [bridgeStep, hr, h]
      | some dl =>
          have hne : id ≠ rid := fun he => by rw [he, hr] at h; cases h
          simp [bridgeStep, hr, hne, h]
  | clock now => simp [bridgeStep, h]
  | close => simp [bridgeStep, h]

/-- bridgeStep_frozen extended along a whole event sequence. -/
theorem bridgeRun_frozen (id : String) (st : BridgeState)
    (events : List BridgeEvent) (h : st.pending id = Option.none) :
    (bridgeRun st events).pending id = Option.none ∧
    (bridgeRun st events).delivered id = st.delivered id := by
  induction events generalizing st with
  | nil => exact ⟨h, rfl⟩
  | cons e rest ih =>
      have hs := bridgeStep_frozen id st e h
      have hrest := ih (bridgeStep st e) hs.1
      exact ⟨hrest.1, by rw [show bridgeRun st (e :: rest)
        = bridgeRun (bridgeStep st e) rest from rfl, hrest.2, hs.2]⟩

/-- Every Bridge event preserves the per-request invariant. -/
theorem bridgeStep_good (id : String) (dl : Nat) (st : BridgeState)
    (e : BridgeEvent) (hg : goodRequest id dl st) :
    goodRequest id dl (bridgeStep st e) := by
  rcases hg with ⟨hp, hd⟩ | ⟨hp, hd⟩
  · cases e with
    | replyArrives rid p =>
        by_cases he : rid = id
        · subst he
          right
          simp [bridgeStep, hp, hd]
        · have hne : id ≠ rid := fun hx => he hx.symm
          left
          cases hr : st.pending rid with
          | none => simp [bridgeStep, hr, hp, hd]
          | some dl2 => simp [bridgeStep, hr, hne, hp, hd]
    | clock now =>
        by_cases hle : dl ≤ now
        · right
          simp [bridgeStep, hp, hd, hle]
        · left
          simp [bridgeStep, hp, hd, hle]
    | close =>
        right
        simp [bridgeStep, hp, hd]
  · have hs := bridgeStep_frozen id st e hp
    right
    exact ⟨hs.1, by rw [hs.2, hd]⟩

/-- The per-request invariant holds after any event sequence. -/
theorem bridgeRun_good (id : String) (dl : Nat) (st : BridgeState)
    (events : List BridgeEvent) (hg : goodRequest id dl st) :
    goodRequest id dl (bridgeRun st events) := by
  induction events generalizing st with
  | nil => exact hg
  | cons e rest ih => exact ih (bridgeStep st e) (bridgeStep_good id dl st e hg)

/-- A resolving event completes a registered request: afterwards the id
is out of the pending map and exactly one outcome has been delivered. -/
theorem bridgeStep_resolves (id : String) (dl : Nat) (st : BridgeState)
    (e : BridgeEvent) (hg : goodRequest id dl st) (hr : resolves id dl e) :
    (bridgeStep st e).pending id = Option.none ∧
    ((bridgeStep st e).delivered id).length = 1 := by
  rcases hg with ⟨hp, hd⟩ | ⟨hp, hd⟩
  · cases e with
    | replyArrives rid p =>
        have he : rid = id := hr
        subst he
        simp [bridgeStep, hp, hd]
    | clock now =>
        have hle : dl ≤ now := hr
        simp [bridgeStep, hp, hd, hle]
    | close => simp [bridgeStep, hp, hd]
  · have hs := bridgeStep_frozen id st e hp
    exact ⟨hs.1, by rw [hs.2, hd]⟩

/-- Once some event of the sequence resolves the request, exactly one
outcome has been delivered by the end of the sequence. -/
theorem bridgeRun_resolved (id : String) (dl : Nat) (st : BridgeState)
    (events : List BridgeEvent) (hg : goodRequest id dl st)
    (hr : ∃ e ∈ events, resolves id dl e) :
    ((bridgeRun st events).delivered id).length = 1 := by
  induction events generalizing st with
  | nil =>
      rcases hr with ⟨e, he, _⟩
      cases he
  | cons e rest ih =>
      rw [show bridgeRun st (e :: rest) = bridgeRun (bridgeStep st e) rest from rfl]
      by_cases hres : resolves id dl e
      · have hstep := bridgeStep_resolves id dl st e hg hres
        have hfr := bridgeRun_frozen id (bridgeStep st e) rest hstep.1
        rw [hfr.2]
        exact hstep.2
      · rcases hr with ⟨e2, he2, hres2⟩
        cases he2 with
        | head => exact absurd hres2 hres
        | tail _ hmem =>
            exact ih (bridgeStep st e) (bridgeStep_good id dl st e hg)
              ⟨e2, hmem, hres2⟩

/-- C1: a registered request is completed at most once whatever the
Bridge observes, and exactly once as soon as the event sequence
contains its reply, a clock instant past its deadline (the Timeout
path), or transport teardown (the TransportClosed path) — never both a
reply and an error, never neither. -/
theorem request_exactly_once (id : String) (dl : Nat) (init : BridgeState)
    (hpend : init.pending id = some dl) (hdel : init.delivered id = [])
    (events : List BridgeEvent) :
    ((bridgeRun init events).delivered id).length ≤ 1 ∧
    ((∃ e ∈ events, resolves id dl e) →
      ((bridgeRun init events).delivered id).length = 1) := by
  have hg : goodRequest id dl init := Or.inl ⟨hpend, hdel⟩
  constructor
  · rcases bridgeRun_good id dl init events hg with ⟨_, hd⟩ | ⟨_, hd⟩
    · simp [hd]
    · simp [hd]
  · intro hr
    exact bridgeRun_resolved id dl init events hg hr

/-- C1 witness: a request with deadline 50 and a clock event at 100 —
the caller receives exactly one outcome (here the Timeout). -/
theorem request_exactly_once_witness :
    ((bridgeRun
        { pending := fun k => if k = "r1" then some 50 else Option.none,
          delivered := fun _ => [] }
        [BridgeEvent.clock 100]).delivered "r1").length = 1 :=
  (request_exactly_once "r1" 50
      { pending := fun k => if k = "r1" then some 50 else Option.none,
        delivered := fun _ => [] }
      (by simp) rfl [BridgeEvent.clock 100]).2
    ⟨BridgeEvent.clock 100, List.Mem.head _, by simp [resolves]⟩

end claims

